import Mathlib

/-!
Verification development for the TFT lobby-profiling core
(internal/riot/profiling.go and internal/riot/cache.go).

Shallow embedding conventions:
- Go float64 fields are modelled by exact rationals; the statistics involved
  are means and fixed decimal thresholds, whose concrete test values are
  exactly representable.
- Go time.Time instants and time.Duration values are modelled by Int
  (nanosecond counts); time.Now().After(t) is now > t.
- Go maps are modelled by association lists with unique keys (mapGet, mapSet,
  mapDelete below).
- A nil pointer receiver or argument is modelled by Option; a nil slice
  argument is modelled by Option (List _) with none standing for nil.
- Fallible Go calls returning (value, error) are modelled by Option results
  (none standing for a non-nil error) when only success or failure matters
  to the callers embedded here.
- Fields of the external API Dto structures that none of the embedded
  functions read are omitted from the corresponding Lean structures.
-/

namespace TFT

/-- Association-list lookup modelling a Go map read. -/
def mapGet {κ β : Type} [DecidableEq κ] (k : κ) : List (κ × β) → Option β
  | [] => none
  | e :: rest => if e.1 = k then some e.2 else mapGet k rest

/-- Association-list key removal modelling Go map delete. -/
def mapDelete {κ β : Type} [DecidableEq κ] (k : κ) : List (κ × β) → List (κ × β)
  | [] => []
  | e :: rest => if e.1 = k then mapDelete k rest else e :: mapDelete k rest

/-- Association-list overwrite modelling a Go map store. -/
def mapSet {κ β : Type} [DecidableEq κ] (k : κ) (v : β) (s : List (κ × β)) :
    List (κ × β) :=
  (k, v) :: mapDelete k s

/-- Occurrence counting into an insertion-ordered association list, modelling
the Go pattern m[key]++ over a map used as a counter. -/
def bumpCount {κ : Type} [DecidableEq κ] (k : κ) : List (κ × Nat) → List (κ × Nat)
  | [] => [(k, 1)]
  | e :: rest => if e.1 = k then (e.1, e.2 + 1) :: rest else e :: bumpCount k rest

/-- Insertion sort, descending on a rational measure; models the Go
sort.Slice calls whose less function compares the Frequency field. -/
def insertDescBy {α : Type} (f : α → ℚ) (x : α) : List α → List α
  | [] => [x]
  | y :: rest => if f y < f x then x :: y :: rest else y :: insertDescBy f x rest

/-- Sort a list descending by a rational measure (see insertDescBy). -/
def sortDescBy {α : Type} (f : α → ℚ) : List α → List α
  | [] => []
  | x :: rest => insertDescBy f x (sortDescBy f rest)

/-! External API data transfer structures (tft.go / types.go), restricted to
the fields read by the profiling code. -/

/-- TraitDto from the match API. -/
structure TraitDto where
  Name : String
  NumUnits : Int
  Style : Int
  TierCurrent : Int
  TierTotal : Int
  deriving DecidableEq, Repr

/-- UnitDto from the match API (ItemNames and Chosen omitted: unread). -/
structure UnitDto where
  Items : List Int
  CharacterID : String
  Name : String
  Rarity : Int
  Tier : Int
  deriving DecidableEq, Repr

/-- ParticipantDto from the match API, fields read by the analyzer. -/
structure ParticipantDto where
  GoldLeft : Int
  Level : Int
  Placement : Int
  PUUID : String
  TimeEliminated : ℚ
  Traits : List TraitDto
  Units : List UnitDto
  deriving DecidableEq, Repr

/-- InfoDto from the match API (only the participant list is read). -/
structure InfoDto where
  Participants : List ParticipantDto
  deriving DecidableEq, Repr

/-- MatchDto from the match API (metadata unread by the analyzer). -/
structure MatchDto where
  Info : InfoDto
  deriving DecidableEq, Repr

/-- CurrentGameParticipant from the spectator API, fields read here. -/
structure CurrentGameParticipant where
  ProfileIconID : Int
  PUUID : String
  deriving DecidableEq, Repr

/-- CurrentGameInfo from the spectator API, fields read here. -/
structure CurrentGameInfo where
  GameID : Int
  Participants : List CurrentGameParticipant
  deriving DecidableEq, Repr

/-! Profile structures (profiling.go lines 9-88). -/

/-- TraitFrequency supporting type. -/
structure TraitFrequency where
  Name : String
  Frequency : ℚ
  AvgTier : ℚ
  deriving DecidableEq, Repr

/-- UnitFrequency supporting type. -/
structure UnitFrequency where
  CharacterID : String
  Name : String
  Frequency : ℚ
  AvgTier : ℚ
  Items : List String
  deriving DecidableEq, Repr

/-- ItemFrequency supporting type. -/
structure ItemFrequency where
  ItemID : Int
  Name : String
  Frequency : ℚ
  Units : List String
  deriving DecidableEq, Repr

/-- CostPreference supporting type. -/
structure CostPreference where
  Cost : Int
  Preference : ℚ
  deriving DecidableEq, Repr

/-- PlayStyleProfile captures how a player typically plays. -/
structure PlayStyleProfile where
  AggresionLevel : ℚ
  EconomyStyle : String
  LevelingPattern : String
  RerollTendency : ℚ
  ContestRate : ℚ
  TopFourRate : ℚ
  AveragePlacement : ℚ
  deriving DecidableEq, Repr

/-- CompPreferenceProfile shows preferred compositions. -/
structure CompPreferenceProfile where
  FavoriteTraits : List TraitFrequency
  FavoriteUnits : List UnitFrequency
  CompFlexibility : ℚ
  TraitDiversity : ℚ
  MetaFollower : ℚ
  PreferredCost : List CostPreference
  deriving DecidableEq, Repr

/-- ItemPreferenceProfile shows item building patterns. -/
structure ItemPreferenceProfile where
  FavoriteItems : List ItemFrequency
  ItemEfficiency : ℚ
  EarlyItemPriority : List String
  FlexibleItemUser : ℚ
  CarryItemFocus : ℚ
  deriving DecidableEq, Repr

/-- PerformanceProfile tracks performance metrics. -/
structure PerformanceProfile where
  RecentForm : List Int
  ConsistencyScore : ℚ
  ClimbingTrend : String
  HighRollGames : Nat
  LowRollGames : Nat
  AverageGameLength : ℚ
  deriving DecidableEq, Repr

/-- PlayerProfile represents analyzed gameplay patterns. LastUpdated is the
derivation instant (Int time model). -/
structure PlayerProfile where
  PUUID : String
  GameName : String
  TagLine : String
  ProfileIconID : Int
  AnalyzedGames : Nat
  LastUpdated : Int
  PlayStyle : PlayStyleProfile
  CompPreference : CompPreferenceProfile
  ItemPreference : ItemPreferenceProfile
  Performance : PerformanceProfile
  deriving DecidableEq, Repr

/-- Go zero value of PlayStyleProfile. -/
def zeroPlayStyle : PlayStyleProfile :=
  { AggresionLevel := 0, EconomyStyle := "", LevelingPattern := ""
    RerollTendency := 0, ContestRate := 0, TopFourRate := 0
    AveragePlacement := 0 }

/-- Go zero value of CompPreferenceProfile. -/
def zeroCompPreference : CompPreferenceProfile :=
  { FavoriteTraits := [], FavoriteUnits := [], CompFlexibility := 0
    TraitDiversity := 0, MetaFollower := 0, PreferredCost := [] }

/-- Go zero value of ItemPreferenceProfile. -/
def zeroItemPreference : ItemPreferenceProfile :=
  { FavoriteItems := [], ItemEfficiency := 0, EarlyItemPriority := []
    FlexibleItemUser := 0, CarryItemFocus := 0 }

/-- Go zero value of PerformanceProfile. -/
def zeroPerformance : PerformanceProfile :=
  { RecentForm := [], ConsistencyScore := 0, ClimbingTrend := ""
    HighRollGames := 0, LowRollGames := 0, AverageGameLength := 0 }

/-- LobbyProfile returned by the lobby aggregator. -/
structure LobbyProfile where
  GameID : Int
  Profiles : List PlayerProfile
  ContestedTraits : List TraitFrequency
  AvgPlacement : ℚ
  TopFourRate : ℚ
  deriving DecidableEq, Repr

/-! Entity cache (cache.go). Durations and instants are Int nanoseconds.
The Go *Cache receiver is modelled by Option Cache (none = nil pointer);
the janitorStop channel field is modelled by a Bool running flag. -/

/-- CachedItem wraps a cached value with an expiration instant. -/
structure CachedItem (α : Type) where
  value : α
  expiresAt : Int
  deriving DecidableEq, Repr

/-- One nanosecond-count minute, matching Go time.Minute. -/
def timeMinute : Int := 60000000000

/-- One nanosecond-count hour, matching Go time.Hour. -/
def timeHour : Int := 3600000000000

/-- Cache state: per-kind TTLs and the three stores (cache.go lines 10-25). -/
structure Cache where
  profileTTL : Int
  matchTTL : Int
  matchIDsTTL : Int
  profiles : List (String × CachedItem PlayerProfile)
  matchesStore : List (String × CachedItem MatchDto)
  matchIDs : List (String × CachedItem (List String))
  janitorStop : Bool
  deriving DecidableEq, Repr

/-- NewCache creates a Cache with the provided TTLs, defaulting any
non-positive TTL (cache.go lines 38-57). -/
def NewCache (profileTTL matchTTL matchIDsTTL : Int) : Cache :=
  { profileTTL := if profileTTL ≤ 0 then timeHour else profileTTL
    matchTTL := if matchTTL ≤ 0 then 24 * timeHour else matchTTL
    matchIDsTTL := if matchIDsTTL ≤ 0 then 15 * timeMinute else matchIDsTTL
    profiles := [], matchesStore := [], matchIDs := [], janitorStop := false }

/-- NewDefaultCache creates a Cache with default TTLs (cache.go lines 60-62). -/
def NewDefaultCache : Cache := NewCache timeHour (24 * timeHour) (15 * timeMinute)

/-- SetProfile caches a PlayerProfile for a PUUID; no-op on nil receiver,
nil profile or empty key (cache.go lines 65-75). -/
def SetProfile (c : Option Cache) (now : Int) (puuid : String)
    (profile : Option PlayerProfile) : Option Cache :=
  match c, profile with
  | none, _ => none
  | some cc, none => some cc
  | some cc, some p =>
    if puuid = "" then some cc
    else some { cc with profiles := mapSet puuid ⟨p, now + cc.profileTTL⟩ cc.profiles }

/-- GetProfile returns a cached profile if present and not expired, evicting
an expired entry eagerly (cache.go lines 78-99). Result is
(value, found, cache after the call). -/
def GetProfile (c : Option Cache) (now : Int) (puuid : String) :
    Option PlayerProfile × Bool × Option Cache :=
  match c with
  | none => (none, false, none)
  | some cc =>
    if puuid = "" then (none, false, some cc)
    else
      match mapGet puuid cc.profiles with
      | none => (none, false, some cc)
      | some item =>
        if now > item.expiresAt then
          (none, false, some { cc with profiles := mapDelete puuid cc.profiles })
        else (some item.value, true, some cc)

/-- SetMatch caches a MatchDto for a matchID (cache.go lines 102-112). -/
def SetMatch (c : Option Cache) (now : Int) (matchID : String)
    (m : Option MatchDto) : Option Cache :=
  match c, m with
  | none, _ => none
  | some cc, none => some cc
  | some cc, some mv =>
    if matchID = "" then some cc
    else some { cc with matchesStore := mapSet matchID ⟨mv, now + cc.matchTTL⟩ cc.matchesStore }

/-- GetMatch returns a cached MatchDto if present and not expired, evicting
an expired entry eagerly (cache.go lines 115-136). -/
def GetMatch (c : Option Cache) (now : Int) (matchID : String) :
    Option MatchDto × Bool × Option Cache :=
  match c with
  | none => (none, false, none)
  | some cc =>
    if matchID = "" then (none, false, some cc)
    else
      match mapGet matchID cc.matchesStore with
      | none => (none, false, some cc)
      | some item =>
        if now > item.expiresAt then
          (none, false, some { cc with matchesStore := mapDelete matchID cc.matchesStore })
        else (some item.value, true, some cc)

/-- SetMatchIDs caches a match-ID slice for a PUUID; the ids argument is
Option with none standing for a nil slice, which is rejected. In this value
model the defensive copy made before storing (cache.go line 147-148) is
identity; aliasing is treated separately in the reference model below
(cache.go lines 139-153). -/
def SetMatchIDs (c : Option Cache) (now : Int) (puuid : String)
    (ids : Option (List String)) : Option Cache :=
  match c, ids with
  | none, _ => none
  | some cc, none => some cc
  | some cc, some l =>
    if puuid = "" then some cc
    else some { cc with matchIDs := mapSet puuid ⟨l, now + cc.matchIDsTTL⟩ cc.matchIDs }

/-- GetMatchIDs returns cached match IDs if present and not expired, evicting
an expired entry eagerly; the returned slice is a defensive copy, identity in
this value model (cache.go lines 156-180). -/
def GetMatchIDs (c : Option Cache) (now : Int) (puuid : String) :
    Option (List String) × Bool × Option Cache :=
  match c with
  | none => (none, false, none)
  | some cc =>
    if puuid = "" then (none, false, some cc)
    else
      match mapGet puuid cc.matchIDs with
      | none => (none, false, some cc)
      | some item =>
        if now > item.expiresAt then
          (none, false, some { cc with matchIDs := mapDelete puuid cc.matchIDs })
        else (some item.value, true, some cc)

/-- PurgeExpired removes expired entries from all three stores
(cache.go lines 184-210). -/
def PurgeExpired (c : Option Cache) (now : Int) : Option Cache :=
  match c with
  | none => none
  | some cc =>
    some { cc with
      profiles := cc.profiles.filter (fun e => !decide (now > e.2.expiresAt))
      matchesStore := cc.matchesStore.filter (fun e => !decide (now > e.2.expiresAt))
      matchIDs := cc.matchIDs.filter (fun e => !decide (now > e.2.expiresAt)) }

/-- StartJanitor marks the janitor running and returns the stop closure as a
state transformer; a nil receiver yields a no-op stop function. The ticker
goroutine itself (real-time periodic purging) is outside the embedding
(cache.go lines 215-253). -/
def StartJanitor (c : Option Cache) (interval : Int) :
    Option Cache × (Option Cache → Option Cache) :=
  match c with
  | none => (none, fun x => x)
  | some cc =>
    (some { cc with janitorStop := true },
     fun x =>
       match x with
       | none => none
       | some cc2 => some { cc2 with janitorStop := false })

/-- Stats purges expired entries and returns the per-store counts
(cache.go lines 257-269). -/
def Stats (c : Option Cache) (now : Int) : (Nat × Nat × Nat) × Option Cache :=
  match c with
  | none => ((0, 0, 0), none)
  | some cc =>
    match PurgeExpired (some cc) now with
    | none => ((0, 0, 0), none)
    | some cc2 =>
      ((cc2.profiles.length, cc2.matchesStore.length, cc2.matchIDs.length), some cc2)

/-- SetTTLs updates per-kind TTLs, keeping the previous TTL for any
non-positive argument (cache.go lines 273-288). -/
def SetTTLs (c : Option Cache) (profileTTL matchTTL matchIDsTTL : Int) :
    Option Cache :=
  match c with
  | none => none
  | some cc =>
    some { cc with
      profileTTL := if profileTTL > 0 then profileTTL else cc.profileTTL
      matchTTL := if matchTTL > 0 then matchTTL else cc.matchTTL
      matchIDsTTL := if matchIDsTTL > 0 then matchIDsTTL else cc.matchIDsTTL }

/-! Profile analyzer (profiling.go lines 90-617). The receiver methods take
no analyzer state except the configured limits and cache, so the pa receiver
is passed explicitly where read and dropped where unread. -/

/-- ProfileAnalyzer configuration (profiling.go lines 91-95). -/
structure ProfileAnalyzer where
  MaxGamesToAnalyze : Nat
  MinGamesRequired : Nat
  Cache : Option Cache
  deriving DecidableEq, Repr

/-- NewProfileAnalyzer creates an analyzer with default settings
(profiling.go lines 98-104). -/
def NewProfileAnalyzer : ProfileAnalyzer :=
  { MaxGamesToAnalyze := 20, MinGamesRequired := 5, Cache := some NewDefaultCache }

/-- Collaborator boundary: the two external fetch calls made by the analyzer,
modelled as pure oracles. getTFTMatchIDsByPUUIDWithRegion takes
(puuid, region, start, count); none stands for a non-nil error. -/
structure CollabEnv where
  getTFTMatchIDsByPUUIDWithRegion : String → String → Nat → Nat → Option (List String)
  getTFTMatchByID : String → Option MatchDto

/-- Region probe order used by AnalyzePlayer (profiling.go line 126). -/
def analyzeRegions : List String :=
  ["NA1", "EUW1", "KR", "BR1", "LAS", "LAN", "EUNE", "OC1", "JP1", "TR1",
   "RU", "PH2", "SG2", "TH2", "TW2", "VN2"]

/-- Region loop of AnalyzePlayer: first region whose fetch succeeds with a
non-empty ID list wins; empty result if all fail (profiling.go lines 127-133). -/
def findMatchIDs (env : CollabEnv) (puuid : String) (maxGames : Nat) :
    List String → List String
  | [] => []
  | region :: rest =>
    match env.getTFTMatchIDsByPUUIDWithRegion puuid region 0 maxGames with
    | some ids => if 0 < ids.length then ids else findMatchIDs env puuid maxGames rest
    | none => findMatchIDs env puuid maxGames rest

/-- Match-ID resolution step of AnalyzePlayer: cached list if present, else
the region loop; none when the loop yields nothing (the NoMatchHistory case).
On a loop success the list is cached. The Option Cache argument is the cache
state after the profile lookup (profiling.go lines 115-140). -/
def resolvedMatchIDs (pa : ProfileAnalyzer) (env : CollabEnv) (now : Int)
    (c : Option Cache) (puuid : String) : Option (List String) × Option Cache :=
  let gi := GetMatchIDs c now puuid
  if gi.2.1 then (some (gi.1.getD []), gi.2.2)
  else
    let ids := findMatchIDs env puuid pa.MaxGamesToAnalyze analyzeRegions
    if ids.length = 0 then (none, gi.2.2)
    else (some ids, SetMatchIDs gi.2.2 now puuid (some ids))

/-- Per-ID match fetch loop of AnalyzePlayer: cache-first, then collaborator;
failures are skipped; successful collaborator fetches are cached
(profiling.go lines 147-166). -/
def fetchMatchesLoop (env : CollabEnv) (now : Int) :
    List String → Option Cache → List MatchDto × Option Cache
  | [], c => ([], c)
  | id :: rest, c =>
    let g := GetMatch c now id
    match g.1 with
    | some m =>
      let r := fetchMatchesLoop env now rest g.2.2
      (m :: r.1, r.2)
    | none =>
      match env.getTFTMatchByID id with
      | some m =>
        let r := fetchMatchesLoop env now rest (SetMatch g.2.2 now id (some m))
        (m :: r.1, r.2)
      | none => fetchMatchesLoop env now rest g.2.2

/-- Player-data extraction: for each match, the first participant whose PUUID
matches, if any (profiling.go lines 180-188). -/
def extractPlayerData (puuid : String) (ms : List MatchDto) :
    List ParticipantDto :=
  ms.filterMap (fun m => m.Info.Participants.find? (fun part => part.PUUID == puuid))

/-- determineEconomyStyle classifies gold management
(profiling.go lines 470-495). -/
def determineEconomyStyle (playerData : List ParticipantDto) : String :=
  if playerData.length = 0 then "unknown"
  else
    let totalGoldLeft : Int := playerData.foldl (fun a g => a + g.GoldLeft) 0
    let highGoldGames : Nat := playerData.countP (fun g => decide (g.GoldLeft ≥ 20))
    let avgGoldLeft : ℚ := (totalGoldLeft : ℚ) / (playerData.length : ℚ)
    let highGoldRate : ℚ := (highGoldGames : ℚ) / (playerData.length : ℚ)
    if avgGoldLeft ≥ 15 ∨ highGoldRate ≥ 6/10 then "greedy"
    else if avgGoldLeft ≤ 5 ∧ highGoldRate ≤ 2/10 then "aggressive"
    else "balanced"

/-- determineLevelingPattern classifies final levels
(profiling.go lines 497-522). -/
def determineLevelingPattern (playerData : List ParticipantDto) : String :=
  if playerData.length = 0 then "unknown"
  else
    let totalLevel : Int := playerData.foldl (fun a g => a + g.Level) 0
    let highLevelGames : Nat := playerData.countP (fun g => decide (g.Level ≥ 9))
    let avgLevel : ℚ := (totalLevel : ℚ) / (playerData.length : ℚ)
    let highLevelRate : ℚ := (highLevelGames : ℚ) / (playerData.length : ℚ)
    if avgLevel ≥ 85/10 ∨ highLevelRate ≥ 4/10 then "fast"
    else if avgLevel ≤ 7 ∧ highLevelRate ≤ 1/10 then "slow"
    else "adaptive"

/-- calculateConsistencyScore: 1/(1 + variance/4) over the placements, 0 for
fewer than two games; the source assigns the variance, not its square root,
to its stdDev variable (profiling.go lines 524-546). -/
def calculateConsistencyScore (placements : List Int) : ℚ :=
  if placements.length < 2 then 0
  else
    let sum : Int := placements.foldl (fun a p => a + p) 0
    let mean : ℚ := (sum : ℚ) / (placements.length : ℚ)
    let variance : ℚ :=
      (placements.foldl (fun a (p : Int) => a + ((p : ℚ) - mean) * ((p : ℚ) - mean)) 0)
        / (placements.length : ℚ)
    1 / (1 + variance / 4)

/-- determineClimbingTrend compares first-half and second-half mean
placements of the recent form (profiling.go lines 548-577). -/
def determineClimbingTrend (recentForm : List Int) : String :=
  if recentForm.length < 5 then "unknown"
  else
    let mid := recentForm.length / 2
    let firstHalf := recentForm.take mid
    let secondHalf := recentForm.drop mid
    let firstAvg : ℚ :=
      (firstHalf.foldl (fun a (p : Int) => a + (p : ℚ)) 0) / (firstHalf.length : ℚ)
    let secondAvg : ℚ :=
      (secondHalf.foldl (fun a (p : Int) => a + (p : ℚ)) 0) / (secondHalf.length : ℚ)
    if secondAvg < firstAvg - 5/10 then "climbing"
    else if secondAvg > firstAvg + 5/10 then "declining"
    else "stable"

/-- analyzePlayStyle (profiling.go lines 322-346). -/
def analyzePlayStyle (playerData : List ParticipantDto) : PlayStyleProfile :=
  if playerData.length = 0 then zeroPlayStyle
  else
    let totalPlacement : Int := playerData.foldl (fun a g => a + g.Placement) 0
    let topFours : Nat := playerData.countP (fun g => decide (g.Placement ≤ 4))
    let avgPlacement : ℚ := (totalPlacement : ℚ) / (playerData.length : ℚ)
    let topFourRate : ℚ := (topFours : ℚ) / (playerData.length : ℚ)
    { zeroPlayStyle with
      AveragePlacement := avgPlacement
      TopFourRate := topFourRate
      EconomyStyle := determineEconomyStyle playerData
      LevelingPattern := determineLevelingPattern playerData }

/-- Trait-count accumulation of analyzeCompPreference: traits with a positive
current tier, counted per game (profiling.go lines 352-358). -/
def countTraits (playerData : List ParticipantDto) : List (String × Nat) :=
  playerData.foldl
    (fun acc g =>
      g.Traits.foldl
        (fun acc2 t => if 0 < t.TierCurrent then bumpCount t.Name acc2 else acc2)
        acc)
    []

/-- Unit-count accumulation of analyzeCompPreference
(profiling.go lines 360-363). -/
def countUnits (playerData : List ParticipantDto) : List (String × Nat) :=
  playerData.foldl
    (fun acc g => g.Units.foldl (fun acc2 u => bumpCount u.CharacterID acc2) acc)
    []

/-- analyzeCompPreference (profiling.go lines 348-397). The Go map iteration
order is fixed here to insertion order; the subsequent unstable sort.Slice is
fixed to the deterministic descending insertion sort. -/
def analyzeCompPreference (playerData : List ParticipantDto) :
    CompPreferenceProfile :=
  let favoriteTraits :=
    (countTraits playerData).map
      (fun e => TraitFrequency.mk e.1 ((e.2 : ℚ) / (playerData.length : ℚ)) 0)
  let favoriteUnits :=
    (countUnits playerData).map
      (fun e => UnitFrequency.mk e.1 "" ((e.2 : ℚ) / (playerData.length : ℚ)) 0 [])
  { zeroCompPreference with
    FavoriteTraits := sortDescBy (fun t => t.Frequency) favoriteTraits
    FavoriteUnits := sortDescBy (fun u => u.Frequency) favoriteUnits }

/-- Item-count accumulation of analyzeItemPreference
(profiling.go lines 400-408). -/
def countItems (playerData : List ParticipantDto) : List (Int × Nat) :=
  playerData.foldl
    (fun acc g =>
      g.Units.foldl
        (fun acc2 u => u.Items.foldl (fun acc3 it => bumpCount it acc3) acc2)
        acc)
    []

/-- analyzeItemPreference (profiling.go lines 399-432); frequencies are raw
counts normalized by the total item count. -/
def analyzeItemPreference (playerData : List ParticipantDto) :
    ItemPreferenceProfile :=
  let itemMap := countItems playerData
  let totalItems : Nat := itemMap.foldl (fun a e => a + e.2) 0
  let favoriteItems :=
    itemMap.map (fun e => ItemFrequency.mk e.1 "" ((e.2 : ℚ) / (totalItems : ℚ)) [])
  { zeroItemPreference with
    FavoriteItems := sortDescBy (fun it => it.Frequency) favoriteItems }

/-- analyzePerformance (profiling.go lines 434-467). -/
def analyzePerformance (playerData : List ParticipantDto) : PerformanceProfile :=
  let recentAll := playerData.map (fun g => g.Placement)
  let highRolls : Nat := playerData.countP (fun g => decide (g.Placement ≤ 2))
  let lowRolls : Nat := playerData.countP (fun g => decide (g.Placement ≥ 7))
  let totalGameTime : ℚ := playerData.foldl (fun a g => a + g.TimeEliminated) 0
  let recentForm :=
    if recentAll.length > 10 then recentAll.drop (recentAll.length - 10)
    else recentAll
  let avgGameLength : ℚ := totalGameTime / (playerData.length : ℚ)
  { RecentForm := recentForm
    ConsistencyScore := calculateConsistencyScore recentForm
    ClimbingTrend := determineClimbingTrend recentForm
    HighRollGames := highRolls
    LowRollGames := lowRolls
    AverageGameLength := avgGameLength }

/-- Profile derivation step of AnalyzePlayer from the fetched matches
(profiling.go lines 172-194). -/
def deriveProfile (now : Int) (puuid : String) (ms : List MatchDto) :
    PlayerProfile :=
  let playerData := extractPlayerData puuid ms
  { PUUID := puuid, GameName := "", TagLine := "", ProfileIconID := 0
    AnalyzedGames := ms.length, LastUpdated := now
    PlayStyle := analyzePlayStyle playerData
    CompPreference := analyzeCompPreference playerData
    ItemPreference := analyzeItemPreference playerData
    Performance := analyzePerformance playerData }

/-- Typed error message of the NoMatchHistory failure
(profiling.go line 135). -/
def noMatchHistoryMsg (puuid : String) : String :=
  "no match history found for " ++ puuid ++ " in any region"

/-- Typed error message of the InsufficientGames failure
(profiling.go line 143). -/
def insufficientGamesMsg (count minimum : Nat) : String :=
  "insufficient games for analysis: " ++ toString count ++
    " (minimum " ++ toString minimum ++ ")"

/-- Typed error message of the InsufficientValidMatches failure
(profiling.go line 169). -/
def insufficientValidMatchesMsg (count : Nat) : String :=
  "insufficient valid matches for analysis: " ++ toString count

/-- AnalyzePlayer creates a profile for a player, or fails
(profiling.go lines 107-202). Returns the outcome and the cache state after
the call. -/
def AnalyzePlayer (pa : ProfileAnalyzer) (env : CollabEnv) (now : Int)
    (puuid : String) : Except String PlayerProfile × Option Cache :=
  let gp := GetProfile pa.Cache now puuid
  match gp.1 with
  | some cached => (.ok cached, gp.2.2)
  | none =>
    let res := resolvedMatchIDs pa env now gp.2.2 puuid
    match res.1 with
    | none => (.error (noMatchHistoryMsg puuid), res.2)
    | some matchIDs =>
      if matchIDs.length < pa.MinGamesRequired then
        (.error (insufficientGamesMsg matchIDs.length pa.MinGamesRequired), res.2)
      else
        let fm := fetchMatchesLoop env now matchIDs res.2
        if fm.1.length < pa.MinGamesRequired then
          (.error (insufficientValidMatchesMsg fm.1.length), fm.2)
        else
          let profile := deriveProfile now puuid fm.1
          (.ok profile, SetProfile fm.2 now puuid (some profile))

/-! Lobby aggregator (profiling.go lines 204-319). Each spawned goroutine
computes pa.AnalyzePlayer(puuid); across one aggregation call this per-task
outcome is abstracted as a pure function of the participant identifier.
The fan-in loop appends results in channel arrival order, so the collected
list is indexed by a completion order: a permutation of the task indices. -/

/-- Result of one profiling goroutine: the analyzed profile, or on error the
minimal fallback profile carrying the known identifier and icon
(profiling.go lines 238-251). -/
def taskResult (analyze : String → Except String PlayerProfile) (now : Int)
    (p : CurrentGameParticipant) : PlayerProfile :=
  match analyze p.PUUID with
  | .ok profile => profile
  | .error _ =>
    { PUUID := p.PUUID, GameName := "", TagLine := ""
      ProfileIconID := p.ProfileIconID, AnalyzedGames := 0, LastUpdated := now
      PlayStyle := zeroPlayStyle, CompPreference := zeroCompPreference
      ItemPreference := zeroItemPreference, Performance := zeroPerformance }

/-- Top-3 favorite-trait counting for contest detection
(profiling.go lines 274-281). -/
def countContestedTraits (profiles : List PlayerProfile) : List (String × Nat) :=
  profiles.foldl
    (fun acc p =>
      ((p.CompPreference.FavoriteTraits.take 3).map (fun t => t.Name)).foldl
        (fun acc2 name => bumpCount name acc2) acc)
    []

/-- One step of the reduction loop over the collected profiles: profiles
with analyzed games contribute their average placement and top-four rate to
the running sums and are counted; the others are passed over
(profiling.go lines 267-272). The accumulator is
(sumAvgPlacement, sumTopFourRate, playerCount). -/
def lobbySumsStep (acc : ℚ × ℚ × Nat) (p : PlayerProfile) : ℚ × ℚ × Nat :=
  if p.AnalyzedGames > 0 then
    (acc.1 + p.PlayStyle.AveragePlacement, acc.2.1 + p.PlayStyle.TopFourRate,
     acc.2.2 + 1)
  else acc

/-- Lobby-level reduction over the collected profiles
(profiling.go lines 260-308). -/
def aggregateLobby (gameID : Int) (n : Nat) (profiles : List PlayerProfile) :
    LobbyProfile :=
  let sums := profiles.foldl lobbySumsStep (0, 0, 0)
  let playerCount := sums.2.2
  let avgPlacement : ℚ :=
    if playerCount > 0 then sums.1 / (playerCount : ℚ) else 0
  let topFourRate : ℚ :=
    if playerCount > 0 then sums.2.1 / (playerCount : ℚ) else 0
  let contested :=
    (countContestedTraits profiles).map
      (fun e => TraitFrequency.mk e.1 ((e.2 : ℚ) / (n : ℚ)) 0)
  { GameID := gameID
    Profiles := profiles
    ContestedTraits := sortDescBy (fun t => t.Frequency) contested
    AvgPlacement := avgPlacement
    TopFourRate := topFourRate }

/-- AnalyzeLobbyAggregated profiles all participants and aggregates
(profiling.go lines 215-309). The completionOrder argument lists task indices
in channel arrival order; any permutation of the launch indices can occur.
The error component of the Go signature is always nil in the source, hence
the Except result here is always ok. -/
def AnalyzeLobbyAggregated (analyze : String → Except String PlayerProfile)
    (now : Int) (gameInfo : CurrentGameInfo) (completionOrder : List Nat) :
    Except String LobbyProfile :=
  let n := gameInfo.Participants.length
  if n = 0 then
    .ok { GameID := gameInfo.GameID, Profiles := [], ContestedTraits := []
          AvgPlacement := 0, TopFourRate := 0 }
  else
    let tasks := gameInfo.Participants.map (taskResult analyze now)
    let profiles := completionOrder.filterMap (fun i => tasks.get? i)
    .ok (aggregateLobby gameInfo.GameID n profiles)

/-- AnalyzeLobby returns just the profile slice
(profiling.go lines 313-319). -/
def AnalyzeLobby (analyze : String → Except String PlayerProfile) (now : Int)
    (gameInfo : CurrentGameInfo) (completionOrder : List Nat) :
    Except String (List PlayerProfile) :=
  match AnalyzeLobbyAggregated analyze now gameInfo completionOrder with
  | .error e => .error e
  | .ok lobby => .ok lobby.Profiles

/-! Concurrency-bound model of the fan-out loop (profiling.go lines 224-258).
The launch loop acquires a slot on a buffered channel of capacity
min(4, n) before spawning each goroutine; each goroutine releases its slot
when it returns. A state records how many tasks have acquired (launched) and
released (finished); a launch transition is enabled only while a slot is
free, a finish transition only while a task is in flight. -/

/-- Concurrency limit chosen by AnalyzeLobbyAggregated
(profiling.go lines 225-228). -/
def maxConcurrent (n : Nat) : Nat := if n < 4 then n else 4

/-- Scheduler state of the fan-out loop: tasks that have acquired and
released their semaphore slot. -/
structure LobbySchedState where
  launched : Nat
  finished : Nat
  deriving DecidableEq, Repr

/-- Interleaving steps of the fan-out loop for n participants. -/
inductive LobbyStep (n : Nat) : LobbySchedState → LobbySchedState → Prop where
  | launch (s : LobbySchedState) (hn : s.launched < n)
      (hcap : s.launched - s.finished < maxConcurrent n) :
      LobbyStep n s ⟨s.launched + 1, s.finished⟩
  | task_done (s : LobbySchedState) (hf : s.finished < s.launched) :
      LobbyStep n s ⟨s.launched, s.finished + 1⟩

/-- States reachable by the fan-out loop from its initial state. -/
def LobbyReachable (n : Nat) (s : LobbySchedState) : Prop :=
  Relation.ReflTransGen (LobbyStep n) ⟨0, 0⟩ s

/-! Reference-heap model of the match-ID slice operations
(cache.go lines 139-180), for the aliasing guarantee. A slice value is a
reference into a heap of string sequences; make-plus-copy allocates a fresh
reference holding the same sequence. The matchIDs store maps a key to a
cached slice reference. -/

/-- Heap of string-sequence slices; references are indices, allocation
appends. -/
structure SliceHeap where
  cells : List (List String)
  deriving DecidableEq, Repr

/-- Allocate a fresh slice holding the given sequence. -/
def SliceHeap.alloc (h : SliceHeap) (v : List String) : Nat × SliceHeap :=
  (h.cells.length, ⟨h.cells ++ [v]⟩)

/-- Read the sequence a slice reference points to. -/
def SliceHeap.read (h : SliceHeap) (r : Nat) : List String :=
  h.cells.getD r []

/-- In-place mutation of the sequence behind a slice reference, modelling a
caller writing through a slice it holds. -/
def SliceHeap.write (h : SliceHeap) (r : Nat) (v : List String) : SliceHeap :=
  ⟨h.cells.set r v⟩

/-- SetMatchIDs in the reference model: the stored entry holds a freshly
allocated copy of the caller sequence, never the caller reference
(cache.go lines 139-153). -/
def SetMatchIDsRef (store : List (String × CachedItem Nat)) (h : SliceHeap)
    (now ttl : Int) (puuid : String) (r : Nat) :
    List (String × CachedItem Nat) × SliceHeap :=
  if puuid = "" then (store, h)
  else
    let a := h.alloc (h.read r)
    (mapSet puuid ⟨a.1, now + ttl⟩ store, a.2)

/-- GetMatchIDs in the reference model: a hit returns a freshly allocated
copy of the stored sequence, never the stored reference
(cache.go lines 156-180). -/
def GetMatchIDsRef (store : List (String × CachedItem Nat)) (h : SliceHeap)
    (now : Int) (puuid : String) :
    Option Nat × Bool × List (String × CachedItem Nat) × SliceHeap :=
  if puuid = "" then (none, false, store, h)
  else
    match mapGet puuid store with
    | none => (none, false, store, h)
    | some item =>
      if now > item.expiresAt then (none, false, mapDelete puuid store, h)
      else
        let a := h.alloc (h.read item.value)
        (some a.1, true, store, a.2)

/-! Spec-side definitions, written from the specification text, for
comparison with the code-derived definitions above. -/

/-- PlayerProfile whose every field is the Go zero value. -/
def emptyPlayerProfile : PlayerProfile :=
  { PUUID := "", GameName := "", TagLine := "", ProfileIconID := 0
    AnalyzedGames := 0, LastUpdated := 0, PlayStyle := zeroPlayStyle
    CompPreference := zeroCompPreference, ItemPreference := zeroItemPreference
    Performance := zeroPerformance }

/-- Mean placement of the first half of a recent-form window, from the
specification text: split at the midpoint, arithmetic mean of the first
half. -/
def firstHalfMean (l : List Int) : ℚ :=
  ((l.take (l.length / 2)).map (fun p : Int => (p : ℚ))).sum
    / ((l.take (l.length / 2)).length : ℚ)

/-- Mean placement of the second half of a recent-form window, from the
specification text. -/
def secondHalfMean (l : List Int) : ℚ :=
  ((l.drop (l.length / 2)).map (fun p : Int => (p : ℚ))).sum
    / ((l.drop (l.length / 2)).length : ℚ)

/-- Lobby average placement from the specification text: mean of the average
placements over only the profiles with AnalyzedGames > 0; 0 when there are
none. -/
def specAvgPlacement (profiles : List PlayerProfile) : ℚ :=
  let withData := profiles.filter (fun p => decide (0 < p.AnalyzedGames))
  if withData.length = 0 then 0
  else ((withData.map (fun p => p.PlayStyle.AveragePlacement)).sum)
    / (withData.length : ℚ)

/-- Lobby average top-four rate from the specification text, over only the
profiles with AnalyzedGames > 0. -/
def specTopFourRate (profiles : List PlayerProfile) : ℚ :=
  let withData := profiles.filter (fun p => decide (0 < p.AnalyzedGames))
  if withData.length = 0 then 0
  else ((withData.map (fun p => p.PlayStyle.TopFourRate)).sum)
    / (withData.length : ℚ)

/-- Per-identifier fetch success in AnalyzePlayer: a cache hit against the
cache state entering the fetch loop, or a successful collaborator fetch. -/
def matchFetchOK (env : CollabEnv) (c : Option Cache) (now : Int)
    (id : String) : Bool :=
  (GetMatch c now id).2.1 || (env.getTFTMatchByID id).isSome

/-- Match-ID list AnalyzePlayer resolves for a player (empty if resolution
fails). -/
def matchIDsOf (pa : ProfileAnalyzer) (env : CollabEnv) (now : Int)
    (puuid : String) : List String :=
  (resolvedMatchIDs pa env now (GetProfile pa.Cache now puuid).2.2 puuid).1.getD []

/-- Cache state entering the match fetch loop of AnalyzePlayer. -/
def cacheAtFetch (pa : ProfileAnalyzer) (env : CollabEnv) (now : Int)
    (puuid : String) : Option Cache :=
  (resolvedMatchIDs pa env now (GetProfile pa.Cache now puuid).2.2 puuid).2

/-- Profiles of a lobby analysis outcome, empty on error. -/
def lobbyPUUIDs (r : Except String LobbyProfile) : List String :=
  match r with
  | .error _ => []
  | .ok lobby => lobby.Profiles.map (fun p => p.PUUID)

/-! Theorems. Each claim Cn of the specification is settled by one theorem
below, with a witness or counterexample where required. -/

/-- C8: on a game-info input with zero participants, AnalyzeLobbyAggregated
returns an empty LobbyProfile carrying the game ID, with no error, and the
result does not depend on the profiling oracle or on any completion
schedule: no profiling task is consulted. AnalyzeLobby likewise returns ok
with the empty list. -/
theorem C8_empty_lobby (analyze : String → Except String PlayerProfile)
    (now : Int) (gameID : Int) (completionOrder : List Nat) :
    AnalyzeLobbyAggregated analyze now ⟨gameID, []⟩ completionOrder =
      .ok { GameID := gameID, Profiles := [], ContestedTraits := []
            AvgPlacement := 0, TopFourRate := 0 } ∧
    AnalyzeLobby analyze now ⟨gameID, []⟩ completionOrder = .ok [] := by
  constructor
  · rfl
  · rfl

/-- C10: every exported cache operation on a nil receiver, with an empty key,
or with a nil value argument is a safe no-op: Gets return (zero value,
false) and leave the cache as it was, Sets leave the cache unchanged,
PurgeExpired, Stats and SetTTLs do nothing on nil, and StartJanitor on nil
returns a no-op stop function. -/
theorem C10_nil_safe (now interval pT mT iT : Int) (key : String) (c : Cache)
    (prof : PlayerProfile) (m : MatchDto) (ids : List String) :
    GetProfile none now key = (none, false, none) ∧
    GetMatch none now key = (none, false, none) ∧
    GetMatchIDs none now key = (none, false, none) ∧
    SetProfile none now key (some prof) = none ∧
    SetMatch none now key (some m) = none ∧
    SetMatchIDs none now key (some ids) = none ∧
    SetProfile (some c) now "" (some prof) = some c ∧
    SetMatch (some c) now "" (some m) = some c ∧
    SetMatchIDs (some c) now "" (some ids) = some c ∧
    SetProfile (some c) now key none = some c ∧
    SetMatch (some c) now key none = some c ∧
    SetMatchIDs (some c) now key none = some c ∧
    GetProfile (some c) now "" = (none, false, some c) ∧
    GetMatch (some c) now "" = (none, false, some c) ∧
    GetMatchIDs (some c) now "" = (none, false, some c) ∧
    PurgeExpired none now = none ∧
    Stats none now = ((0, 0, 0), none) ∧
    SetTTLs none pT mT iT = none ∧
    StartJanitor none interval = (none, fun x => x) := by
  refine ⟨rfl, rfl, rfl, rfl, rfl, rfl, ?_, ?_, ?_, rfl, rfl, rfl, ?_, ?_, ?_,
    rfl, rfl, rfl, rfl⟩ <;> simp [SetProfile, SetMatch, SetMatchIDs,
      GetProfile, GetMatch, GetMatchIDs]

/-- C3: for each cache kind, a Get on an absent key reports found=false and
leaves the cache unchanged; a Get that finds an entry whose expiry instant
has passed reports found=false, never returns the stored value, and evicts
exactly that entry from that store, leaving everything else unchanged; a Get
that finds an unexpired entry returns its value. -/
theorem C3_get_expiry (c : Cache) (now : Int) (key : String) (hkey : key ≠ "") :
    (mapGet key c.profiles = none →
      GetProfile (some c) now key = (none, false, some c)) ∧
    (∀ it, mapGet key c.profiles = some it → now > it.expiresAt →
      GetProfile (some c) now key =
        (none, false, some { c with profiles := mapDelete key c.profiles })) ∧
    (∀ it, mapGet key c.profiles = some it → ¬ now > it.expiresAt →
      GetProfile (some c) now key = (some it.value, true, some c)) ∧
    (mapGet key c.matchesStore = none →
      GetMatch (some c) now key = (none, false, some c)) ∧
    (∀ it, mapGet key c.matchesStore = some it → now > it.expiresAt →
      GetMatch (some c) now key =
        (none, false, some { c with matchesStore := mapDelete key c.matchesStore })) ∧
    (∀ it, mapGet key c.matchesStore = some it → ¬ now > it.expiresAt →
      GetMatch (some c) now key = (some it.value, true, some c)) ∧
    (mapGet key c.matchIDs = none →
      GetMatchIDs (some c) now key = (none, false, some c)) ∧
    (∀ it, mapGet key c.matchIDs = some it → now > it.expiresAt →
      GetMatchIDs (some c) now key =
        (none, false, some { c with matchIDs := mapDelete key c.matchIDs })) ∧
    (∀ it, mapGet key c.matchIDs = some it → ¬ now > it.expiresAt →
      GetMatchIDs (some c) now key = (some it.value, true, some c)) := by
  refine ⟨?_, ?_, ?_, ?_, ?_, ?_, ?_, ?_, ?_⟩ <;>
    (first
      | (intro h; simp [GetProfile, GetMatch, GetMatchIDs, hkey, h])
      | (intro it h hexp; simp [GetProfile, GetMatch, GetMatchIDs, hkey, h, hexp]))

/-- Concrete cache with one expired entry in each store, for the C3 witness. -/
def C3witCache : Cache :=
  { profileTTL := 1, matchTTL := 1, matchIDsTTL := 1
    profiles := [("k", ⟨emptyPlayerProfile, 5⟩)]
    matchesStore := [("k", ⟨⟨⟨[]⟩⟩, 5⟩)]
    matchIDs := [("k", ⟨["m1"], 5⟩)]
    janitorStop := false }

/-- Witness for C3: at time 10 the entries of C3witCache, which expired at 5,
are not returned and are evicted from their stores. -/
theorem C3_get_expiry_witness :
    GetProfile (some C3witCache) 10 "k" =
      (none, false, some { C3witCache with profiles := [] }) ∧
    GetMatch (some C3witCache) 10 "k" =
      (none, false, some { C3witCache with matchesStore := [] }) ∧
    GetMatchIDs (some C3witCache) 10 "k" =
      (none, false, some { C3witCache with matchIDs := [] }) := by
  have h := C3_get_expiry C3witCache 10 "k" (by decide)
  exact ⟨h.2.1 ⟨emptyPlayerProfile, 5⟩ rfl (by decide),
    h.2.2.2.2.1 ⟨⟨⟨[]⟩⟩, 5⟩ rfl (by decide),
    h.2.2.2.2.2.2.2.1 ⟨["m1"], 5⟩ rfl (by decide)⟩

/-- Folding addition from zero is list summation (used to rephrase the Go
accumulation loops). -/
theorem foldl_add_eq_sum (f : α → ℚ) (l : List α) :
    l.foldl (fun a p => a + f p) 0 = (l.map f).sum := by
  have h : ∀ (init : ℚ), l.foldl (fun a p => a + f p) init = init + (l.map f).sum := by
    induction l with
    | nil => intro init; simp
    | cons x xs ih => intro init; simp [List.foldl_cons, ih, add_assoc]
  simpa using h 0

/-- C6 counterexample: on recent form [5,4,4,4,4] the second-half mean (4) is
exactly 0.5 lower than the first-half mean (4.5), yet the code classifies the
trend as stable, not climbing: the comparison in the source is strict. -/
theorem C6_trend_counterexample :
    secondHalfMean [5, 4, 4, 4, 4] = firstHalfMean [5, 4, 4, 4, 4] - 1/2 ∧
    determineClimbingTrend [5, 4, 4, 4, 4] = "stable" ∧
    determineClimbingTrend [5, 4, 4, 4, 4] ≠ "climbing" := by
  refine ⟨?_, ?_, ?_⟩ <;>
    (first
      | (norm_num [firstHalfMean, secondHalfMean, determineClimbingTrend]; done)
      | (norm_num [firstHalfMean, secondHalfMean, determineClimbingTrend];
         decide))

/-- C6 amended: the trend is unknown for fewer than 5 entries; otherwise,
splitting at the midpoint, it is climbing when the second-half mean is MORE
than 0.5 lower than the first-half mean, declining when more than 0.5
higher, and stable otherwise (the comparisons are strict, not "at least");
the three concrete example classifications of the claim hold. -/
theorem C6_trend_amended (l : List Int) :
    (l.length < 5 → determineClimbingTrend l = "unknown") ∧
    (5 ≤ l.length →
      determineClimbingTrend l =
        (if secondHalfMean l < firstHalfMean l - 1/2 then "climbing"
         else if firstHalfMean l + 1/2 < secondHalfMean l then "declining"
         else "stable")) ∧
    determineClimbingTrend [6, 5, 4, 3, 2, 1] = "climbing" ∧
    determineClimbingTrend [2, 3, 4, 5, 6, 7] = "declining" ∧
    determineClimbingTrend [4, 3, 4, 5, 4, 3] = "stable" := by
  refine ⟨?_, ?_, ?_, ?_, ?_⟩
  · intro h; simp [determineClimbingTrend, h]
  · intro h
    have hlen : ¬ l.length < 5 := by omega
    simp only [determineClimbingTrend, hlen, if_false]
    rw [foldl_add_eq_sum (fun p : Int => (p : ℚ)) (l.take (l.length / 2)),
      foldl_add_eq_sum (fun p : Int => (p : ℚ)) (l.drop (l.length / 2))]
    have h510 : (5 : ℚ)/10 = 1/2 := by norm_num
    rw [h510]
    rfl
  all_goals norm_num [determineClimbingTrend, firstHalfMean, secondHalfMean]

/-- Witness for C6 amended: the boundary list [5,4,4,4,4] has 5 entries and
the amended classification yields stable there. -/
theorem C6_trend_amended_witness :
    5 ≤ ([5, 4, 4, 4, 4] : List Int).length ∧
    determineClimbingTrend [5, 4, 4, 4, 4] =
      (if secondHalfMean [5, 4, 4, 4, 4] < firstHalfMean [5, 4, 4, 4, 4] - 1/2
       then "climbing"
       else if firstHalfMean [5, 4, 4, 4, 4] + 1/2 < secondHalfMean [5, 4, 4, 4, 4]
       then "declining"
       else "stable") :=
  ⟨by decide, (C6_trend_amended [5, 4, 4, 4, 4]).2.1 (by decide)⟩

/-- Indexing a list by the full range of its indices recovers the list. -/
theorem filterMap_get_range (l : List α) :
    (List.range l.length).filterMap l.get? = l := by
  induction l with
  | nil => rfl
  | cons x xs ih =>
    rw [List.length_cons, List.range_succ_eq_map, List.filterMap_cons,
      List.filterMap_map]
    have hcomp : (x :: xs).get? ∘ Nat.succ = xs.get? := by
      funext i; rfl
    simp only [List.get?_cons_zero, hcomp, ih]

/-- Collecting task results in any completion order (a permutation of the
launch indices) yields a permutation of the tasks. -/
theorem collected_perm (tasks : List α) (order : List Nat)
    (h : order.Perm (List.range tasks.length)) :
    (order.filterMap tasks.get?).Perm tasks := by
  have h2 := h.filterMap tasks.get?
  rw [filterMap_get_range] at h2
  exact h2

/-- Profiling oracle used by the ordering exhibits: every player succeeds
with a profile carrying their own PUUID. -/
def orderProbe : String → Except String PlayerProfile :=
  fun puuid => .ok { emptyPlayerProfile with PUUID := puuid }

/-- Two-participant game used by the ordering exhibits. -/
def twoLobby : CurrentGameInfo := ⟨77, [⟨1, "a"⟩, ⟨2, "b"⟩]⟩

/-- C1 counterexample: with participants [a, b], under the completion
schedule in which the second task finishes first (a valid permutation of the
launch indices), the returned profile list is [b, a]: the collection loop
appends in channel arrival order and never re-sequences, so the output does
not preserve participant input order. -/
theorem C1_order_counterexample :
    [1, 0].Perm (List.range twoLobby.Participants.length) ∧
    twoLobby.Participants.map (fun p => p.PUUID) = ["a", "b"] ∧
    lobbyPUUIDs (AnalyzeLobbyAggregated orderProbe 0 twoLobby [1, 0]) =
      ["b", "a"] := by
  refine ⟨by decide, rfl, rfl⟩

/-- C1 amended: for every completion schedule the profile list contains
exactly the participants' task results — one profile per participant, as a
permutation — and it equals the input-ordered list exactly when tasks
complete in launch order; input order is not guaranteed for other
schedules. -/
theorem C1_order_amended (analyze : String → Except String PlayerProfile)
    (now : Int) (g : CurrentGameInfo) (order : List Nat) (lobby : LobbyProfile)
    (horder : order.Perm (List.range g.Participants.length))
    (hok : AnalyzeLobbyAggregated analyze now g order = .ok lobby) :
    lobby.Profiles.Perm (g.Participants.map (taskResult analyze now)) ∧
    (order = List.range g.Participants.length →
      lobby.Profiles = g.Participants.map (taskResult analyze now)) := by
  unfold AnalyzeLobbyAggregated at hok
  by_cases hn : g.Participants.length = 0
  · rw [if_pos hn] at hok
    have hl : lobby = { GameID := g.GameID, Profiles := [], ContestedTraits := []
                        AvgPlacement := 0, TopFourRate := 0 } := by
      cases hok; rfl
    have hemp : g.Participants = [] := List.length_eq_zero.mp hn
    subst hl
    constructor
    · simp [hemp]
    · intro _; simp [hemp]
  · rw [if_neg hn] at hok
    have hl : lobby = aggregateLobby g.GameID g.Participants.length
        (order.filterMap (g.Participants.map (taskResult analyze now)).get?) := by
      cases hok; rfl
    subst hl
    have hlen : (g.Participants.map (taskResult analyze now)).length =
        g.Participants.length := List.length_map _ _
    constructor
    · refine collected_perm _ order ?_
      rw [hlen]; exact horder
    · intro heq
      subst heq
      show (List.range g.Participants.length).filterMap
        (g.Participants.map (taskResult analyze now)).get? = _
      rw [← hlen, filterMap_get_range]

/-- Lobby analysis outcome of the ordering exhibit, for the C1 witness. -/
def C1witLobby : LobbyProfile :=
  match AnalyzeLobbyAggregated orderProbe 0 twoLobby [1, 0] with
  | .ok lobby => lobby
  | .error _ => ⟨0, [], [], 0, 0⟩

/-- Witness for C1 amended at the concrete two-participant exhibit. -/
theorem C1_order_amended_witness :
    C1witLobby.Profiles.Perm (twoLobby.Participants.map (taskResult orderProbe 0)) := by
  have h := C1_order_amended orderProbe 0 twoLobby [1, 0] C1witLobby
    (by decide) rfl
  exact h.1

/-- The fan-out concurrency limit equals min(4, n). -/
theorem maxConcurrent_eq_min (n : Nat) : maxConcurrent n = min 4 n := by
  unfold maxConcurrent
  split <;> omega

/-- The fan-out concurrency limit is positive for a non-empty lobby. -/
theorem maxConcurrent_pos (n : Nat) (h : 0 < n) : 0 < maxConcurrent n := by
  unfold maxConcurrent
  split <;> omega

/-- Invariant of the fan-out loop: releases never exceed acquisitions,
acquisitions never exceed the participant count, and in-flight tasks never
exceed the semaphore capacity. -/
theorem lobby_reach_invariant (n : Nat) (s : LobbySchedState)
    (h : LobbyReachable n s) :
    s.finished ≤ s.launched ∧ s.launched ≤ n ∧
      s.launched - s.finished ≤ maxConcurrent n := by
  induction h with
  | refl => exact ⟨Nat.le_refl 0, Nat.zero_le n, Nat.zero_le _⟩
  | tail _ hstep ih =>
    cases hstep with
    | launch hn hcap =>
      refine ⟨?_, ?_, ?_⟩ <;> dsimp only <;> omega
    | task_done hf =>
      refine ⟨?_, ?_, ?_⟩ <;> dsimp only <;> omega

/-- From any state satisfying the invariant the loop can run to completion:
all n tasks launch and finish; no task is dropped. -/
theorem lobby_progress (n : Nat) : ∀ (k : Nat) (s : LobbySchedState),
    n - s.launched + (n - s.finished) ≤ k → s.finished ≤ s.launched →
    s.launched ≤ n → Relation.ReflTransGen (LobbyStep n) s ⟨n, n⟩ := by
  intro k
  induction k with
  | zero =>
    intro s hm hfl hln
    obtain ⟨l, f⟩ := s
    dsimp only at hm hfl hln
    have h1 : l = n := by omega
    have h2 : f = n := by omega
    subst h1; subst h2
    exact Relation.ReflTransGen.refl
  | succ k ih =>
    intro s hm hfl hln
    obtain ⟨l, f⟩ := s
    dsimp only at hm hfl hln
    by_cases hdone : l = n ∧ f = n
    · obtain ⟨h1, h2⟩ := hdone
      subst h1; subst h2
      exact Relation.ReflTransGen.refl
    · by_cases hlt : f < l
      · exact Relation.ReflTransGen.head (LobbyStep.task_done ⟨l, f⟩ hlt)
          (ih ⟨l, f + 1⟩ (by dsimp only; omega) (by dsimp only; omega)
            (by dsimp only; omega))
      · have hln2 : l < n := by omega
        have hcap : (⟨l, f⟩ : LobbySchedState).launched -
            (⟨l, f⟩ : LobbySchedState).finished < maxConcurrent n := by
          have := maxConcurrent_pos n (by omega)
          dsimp only
          omega
        exact Relation.ReflTransGen.head (LobbyStep.launch ⟨l, f⟩ hln2 hcap)
          (ih ⟨l + 1, f⟩ (by dsimp only; omega) (by dsimp only; omega)
            (by dsimp only; omega))

/-- C9: in every reachable state of the fan-out loop at most min(4, n)
profiling tasks are in flight, and from every reachable state the loop can
still drive all n tasks to completion: waiting tasks are delayed, never
dropped. -/
theorem C9_concurrency_bound (n : Nat) (s : LobbySchedState)
    (h : LobbyReachable n s) :
    s.launched - s.finished ≤ min 4 n ∧
    Relation.ReflTransGen (LobbyStep n) s ⟨n, n⟩ := by
  have inv := lobby_reach_invariant n s h
  constructor
  · rw [← maxConcurrent_eq_min]
    exact inv.2.2
  · exact lobby_progress n (n - s.launched + (n - s.finished)) s
      (Nat.le_refl _) inv.1 inv.2.1

/-- Witness for C9: after one launch in a ten-participant lobby, one task is
in flight, within the bound min(4, 10), and completion remains reachable. -/
theorem C9_concurrency_bound_witness :
    LobbyReachable 10 ⟨1, 0⟩ ∧
    ((1 : Nat) - 0 ≤ min 4 10 ∧
      Relation.ReflTransGen (LobbyStep 10) ⟨1, 0⟩ ⟨10, 10⟩) := by
  have hreach : LobbyReachable 10 ⟨1, 0⟩ :=
    Relation.ReflTransGen.single (LobbyStep.launch ⟨0, 0⟩ (by decide) (by decide))
  exact ⟨hreach, C9_concurrency_bound 10 ⟨1, 0⟩ hreach⟩

/-- The reduction loop accumulator equals the filter-based reading: sums of
the average placements and top-four rates of the profiles with analyzed
games, and their count. -/
theorem lobbySums_spec (profiles : List PlayerProfile) : ∀ init : ℚ × ℚ × Nat,
    profiles.foldl lobbySumsStep init =
      (init.1 + ((profiles.filter (fun p => decide (0 < p.AnalyzedGames))).map
          (fun p => p.PlayStyle.AveragePlacement)).sum,
       init.2.1 + ((profiles.filter (fun p => decide (0 < p.AnalyzedGames))).map
          (fun p => p.PlayStyle.TopFourRate)).sum,
       init.2.2 + (profiles.filter (fun p => decide (0 < p.AnalyzedGames))).length) := by
  induction profiles with
  | nil => intro init; simp
  | cons p ps ih =>
    intro init
    rw [List.foldl_cons, ih]
    by_cases hp : 0 < p.AnalyzedGames
    · have hf : List.filter (fun p => decide (0 < p.AnalyzedGames)) (p :: ps) =
          p :: List.filter (fun p => decide (0 < p.AnalyzedGames)) ps := by
        rw [List.filter_cons_of_pos]
        simpa using hp
      rw [hf]
      simp only [lobbySumsStep, gt_iff_lt, if_pos hp, List.map_cons,
        List.sum_cons, List.length_cons]
      refine Prod.ext ?_ (Prod.ext ?_ ?_) <;> dsimp only
      · ring
      · ring
      · omega
    · have hf : List.filter (fun p => decide (0 < p.AnalyzedGames)) (p :: ps) =
          List.filter (fun p => decide (0 < p.AnalyzedGames)) ps := by
        rw [List.filter_cons_of_neg]
        simpa using hp
      rw [hf]
      simp only [lobbySumsStep, gt_iff_lt, if_neg hp]

/-- The lobby averages computed by the reduction equal the spec-side means
over only the profiles with analyzed games. -/
theorem aggregate_avg (gameID : Int) (n : Nat) (profiles : List PlayerProfile) :
    (aggregateLobby gameID n profiles).AvgPlacement = specAvgPlacement profiles ∧
    (aggregateLobby gameID n profiles).TopFourRate = specTopFourRate profiles := by
  unfold aggregateLobby specAvgPlacement specTopFourRate
  rw [lobbySums_spec]
  dsimp only
  by_cases hlen : (profiles.filter (fun p => decide (0 < p.AnalyzedGames))).length = 0
  · simp [hlen]
  · simp [hlen, Nat.pos_of_ne_zero hlen]

/-- C7: a per-participant profiling failure never fails the aggregation: the
returned profile list still has one profile per participant; any failed
participant is represented by the zero-valued fallback profile carrying only
their identifier and icon with AnalyzedGames = 0, present in the output; and
the lobby average placement and top-four rate are computed only over the
profiles with AnalyzedGames > 0 (zero when there are none). -/
theorem C7_partial_failure (analyze : String → Except String PlayerProfile)
    (now : Int) (g : CurrentGameInfo) (order : List Nat) (lobby : LobbyProfile)
    (horder : order.Perm (List.range g.Participants.length))
    (hok : AnalyzeLobbyAggregated analyze now g order = .ok lobby) :
    lobby.Profiles.length = g.Participants.length ∧
    (∀ p, p ∈ g.Participants → ∀ e, analyze p.PUUID = .error e →
      taskResult analyze now p ∈ lobby.Profiles ∧
      taskResult analyze now p =
        { PUUID := p.PUUID, GameName := "", TagLine := ""
          ProfileIconID := p.ProfileIconID, AnalyzedGames := 0, LastUpdated := now
          PlayStyle := zeroPlayStyle, CompPreference := zeroCompPreference
          ItemPreference := zeroItemPreference
          Performance := zeroPerformance }) ∧
    lobby.AvgPlacement = specAvgPlacement lobby.Profiles ∧
    lobby.TopFourRate = specTopFourRate lobby.Profiles := by
  unfold AnalyzeLobbyAggregated at hok
  by_cases hn : g.Participants.length = 0
  · rw [if_pos hn] at hok
    have hl : lobby = { GameID := g.GameID, Profiles := [], ContestedTraits := []
                        AvgPlacement := 0, TopFourRate := 0 } := by
      cases hok; rfl
    have hemp : g.Participants = [] := List.length_eq_zero.mp hn
    subst hl
    refine ⟨by simp [hemp], ?_, rfl, rfl⟩
    intro p hp
    rw [hemp] at hp
    cases hp
  · rw [if_neg hn] at hok
    have hl : lobby = aggregateLobby g.GameID g.Participants.length
        (order.filterMap (g.Participants.map (taskResult analyze now)).get?) := by
      cases hok; rfl
    subst hl
    have hlen : (g.Participants.map (taskResult analyze now)).length =
        g.Participants.length := List.length_map _ _
    have hperm : ((order.filterMap
        (g.Participants.map (taskResult analyze now)).get?)).Perm
        (g.Participants.map (taskResult analyze now)) := by
      refine collected_perm _ order ?_
      rw [hlen]; exact horder
    have hprof : (aggregateLobby g.GameID g.Participants.length
        (order.filterMap (g.Participants.map (taskResult analyze now)).get?)).Profiles =
        order.filterMap (g.Participants.map (taskResult analyze now)).get? := rfl
    refine ⟨?_, ?_, ?_, ?_⟩
    · rw [hprof, hperm.length_eq, hlen]
    · intro p hp e herr
      constructor
      · rw [hprof, hperm.mem_iff]
        exact List.mem_map_of_mem _ hp
      · unfold taskResult
        rw [herr]
    · rw [hprof]
      exact (aggregate_avg _ _ _).1
    · rw [hprof]
      exact (aggregate_avg _ _ _).2

/-- Profiling oracle for the C7 witness: player a succeeds, player b fails. -/
def C7probe : String → Except String PlayerProfile :=
  fun puuid =>
    if puuid = "a" then
      .ok { emptyPlayerProfile with PUUID := "a", AnalyzedGames := 5 }
    else .error "boom"

/-- Lobby analysis outcome of the C7 exhibit. -/
def C7witLobby : LobbyProfile :=
  match AnalyzeLobbyAggregated C7probe 0 twoLobby [0, 1] with
  | .ok lobby => lobby
  | .error _ => ⟨0, [], [], 0, 0⟩

/-- Witness for C7: in the two-participant exhibit where player b fails, the
lobby still has two profiles, b's fallback profile with AnalyzedGames = 0 is
among them, and the averages are the spec-side means over the profiles with
data. -/
theorem C7_partial_failure_witness :
    C7witLobby.Profiles.length = 2 ∧
    taskResult C7probe 0 ⟨2, "b"⟩ ∈ C7witLobby.Profiles ∧
    (taskResult C7probe 0 ⟨2, "b"⟩).AnalyzedGames = 0 ∧
    C7witLobby.AvgPlacement = specAvgPlacement C7witLobby.Profiles := by
  have h := C7_partial_failure C7probe 0 twoLobby [0, 1] C7witLobby
    (by decide) rfl
  have hb := h.2.1 ⟨2, "b"⟩ (by decide) "boom" rfl
  exact ⟨h.1, hb.1, by rw [hb.2], h.2.2.1⟩

/-- Looking up the key just stored finds the stored item. -/
@[simp] theorem mapGet_mapSet_self {κ β : Type} [DecidableEq κ] (k : κ) (v : β)
    (s : List (κ × β)) : mapGet k (mapSet k v s) = some v := by
  simp [mapGet, mapSet]

/-- getD of an appended singleton at the old length is the appended value. -/
theorem getD_append_length {α : Type} (l : List α) (v d : α) :
    (l ++ [v]).getD l.length d = v := by
  induction l with
  | nil => rfl
  | cons x xs ih => simpa using ih

/-- getD of an appended singleton below or beyond the old length is
unchanged. -/
theorem getD_append_ne {α : Type} (l : List α) (v d : α) (x : Nat)
    (hx : x ≠ l.length) : (l ++ [v]).getD x d = l.getD x d := by
  induction l generalizing x with
  | nil =>
    cases x with
    | zero => exact absurd rfl hx
    | succ n => simp [List.getD]
  | cons y ys ih =>
    cases x with
    | zero => rfl
    | succ n =>
      simp only [List.cons_append, List.getD_cons_succ]
      exact ih n (by simpa using hx)

/-- getD after set at a different index is unchanged. -/
theorem getD_set_ne {α : Type} (l : List α) (i : Nat) (v d : α) (x : Nat)
    (hx : x ≠ i) : (l.set i v).getD x d = l.getD x d := by
  induction l generalizing i x with
  | nil => rfl
  | cons y ys ih =>
    cases i with
    | zero =>
      cases x with
      | zero => exact absurd rfl hx
      | succ m => simp [List.getD_cons_succ]
    | succ n =>
      cases x with
      | zero => rfl
      | succ m =>
        simp only [List.set_cons_succ, List.getD_cons_succ]
        exact ih n m (by simpa using hx)

/-- Reading the slice just allocated yields the allocated sequence. -/
theorem read_alloc_self (h : SliceHeap) (v : List String) :
    (h.alloc v).2.read h.cells.length = v :=
  getD_append_length h.cells v []

/-- Allocation does not change any other slice. -/
theorem read_alloc_ne (h : SliceHeap) (v : List String) (x : Nat)
    (hx : x ≠ h.cells.length) : (h.alloc v).2.read x = h.read x :=
  getD_append_ne h.cells v [] x hx

/-- Writing through one slice reference does not change any other slice. -/
theorem read_write_ne (h : SliceHeap) (i : Nat) (v : List String) (x : Nat)
    (hx : x ≠ i) : (h.write i v).read x = h.read x :=
  getD_set_ne h.cells i v [] x hx

/-- Writing preserves the allocation frontier. -/
theorem write_cells_length (h : SliceHeap) (i : Nat) (v : List String) :
    (h.write i v).cells.length = h.cells.length := by
  show (h.cells.set i v).length = h.cells.length
  exact List.length_set h.cells i v

/-- An unexpired hit in the reference model returns a fresh copy of the
stored slice and leaves the store unchanged. -/
theorem getRef_hit (store : List (String × CachedItem Nat)) (hp : SliceHeap)
    (now2 : Int) (puuid : String) (L : Nat) (e : Int) (hkey : puuid ≠ "")
    (hfound : mapGet puuid store = some ⟨L, e⟩) (hfresh : ¬ now2 > e) :
    GetMatchIDsRef store hp now2 puuid =
      (some hp.cells.length, true, store, (hp.alloc (hp.read L)).2) := by
  rw [GetMatchIDsRef, if_neg hkey, hfound]
  dsimp only
  rw [if_neg hfresh]
  rfl

/-- C4: SetMatchIDs stores a copy of the input slice and GetMatchIDs returns
a copy of the stored slice: after storing through reference r and then
writing anything through r (caller mutation of the input slice), a get still
finds the entry and its returned slice reads as the originally stored
sequence; after writing anything through the slice returned by that get, a
second get still reads the originally stored sequence. -/
theorem C4_defensive_copies (store : List (String × CachedItem Nat))
    (h : SliceHeap) (now ttl now2 : Int) (puuid : String) (r : Nat)
    (w w2 : List String) (hkey : puuid ≠ "") (hr : r < h.cells.length)
    (hfresh : ¬ now2 > now + ttl) :
    let s1 := SetMatchIDsRef store h now ttl puuid r
    let h1 := s1.2.write r w
    let g1 := GetMatchIDsRef s1.1 h1 now2 puuid
    let h2 := g1.2.2.2.write (g1.1.getD 0) w2
    let g2 := GetMatchIDsRef g1.2.2.1 h2 now2 puuid
    g1.2.1 = true ∧
    g1.1 = some h1.cells.length ∧
    g1.2.2.2.read h1.cells.length = h.read r ∧
    g2.2.1 = true ∧
    g2.1 = some h2.cells.length ∧
    g2.2.2.2.read h2.cells.length = h.read r := by
  dsimp only
  have hs1 : SetMatchIDsRef store h now ttl puuid r =
      (mapSet puuid ⟨h.cells.length, now + ttl⟩ store,
       (h.alloc (h.read r)).2) := by
    rw [SetMatchIDsRef, if_neg hkey]
    rfl
  simp only [hs1]
  have hread1 : (((h.alloc (h.read r)).2).write r w).read h.cells.length =
      h.read r := by
    rw [read_write_ne _ _ _ _ (by omega), read_alloc_self]
  have hlen1 : (((h.alloc (h.read r)).2).write r w).cells.length =
      h.cells.length + 1 := by
    rw [write_cells_length]
    show (h.cells ++ [h.read r]).length = h.cells.length + 1
    simp
  have hg1 := getRef_hit (mapSet puuid ⟨h.cells.length, now + ttl⟩ store)
    (((h.alloc (h.read r)).2).write r w) now2 puuid h.cells.length (now + ttl)
    hkey (mapGet_mapSet_self _ _ _) hfresh
  rw [hread1] at hg1
  simp only [hg1, Option.getD_some]
  refine ⟨trivial, trivial, ?_, ?_⟩
  · rw [read_alloc_self]
  · have hread2 :
        (((((h.alloc (h.read r)).2).write r w).alloc (h.read r)).2.write
            ((((h.alloc (h.read r)).2).write r w).cells.length) w2).read
          h.cells.length = h.read r := by
      rw [read_write_ne _ _ _ _ (by omega), read_alloc_ne _ _ _ (by omega),
        read_write_ne _ _ _ _ (by omega), read_alloc_self]
    have hg2 := getRef_hit (mapSet puuid ⟨h.cells.length, now + ttl⟩ store)
      (((((h.alloc (h.read r)).2).write r w).alloc (h.read r)).2.write
        ((((h.alloc (h.read r)).2).write r w).cells.length) w2) now2 puuid
      h.cells.length (now + ttl) hkey (mapGet_mapSet_self _ _ _) hfresh
    rw [hread2] at hg2
    simp only [hg2]
    exact ⟨trivial, trivial, by rw [read_alloc_self]⟩

/-- Witness for C4: store ["m1"] under key p, overwrite the caller slice
with ["X"]; the get at time 5 (TTL 10, stored at 0) still finds the entry
and its returned slice reads as ["m1"]. -/
theorem C4_defensive_copies_witness :
    (GetMatchIDsRef (SetMatchIDsRef [] ⟨[["m1"]]⟩ 0 10 "p" 0).1
        ((SetMatchIDsRef [] ⟨[["m1"]]⟩ 0 10 "p" 0).2.write 0 ["X"]) 5 "p").2.1 =
      true ∧
    (GetMatchIDsRef (SetMatchIDsRef [] ⟨[["m1"]]⟩ 0 10 "p" 0).1
        ((SetMatchIDsRef [] ⟨[["m1"]]⟩ 0 10 "p" 0).2.write 0 ["X"]) 5 "p").2.2.2.read
      ((SetMatchIDsRef [] ⟨[["m1"]]⟩ 0 10 "p" 0).2.write 0 ["X"]).cells.length =
      ["m1"] := by
  have h := C4_defensive_copies [] ⟨[["m1"]]⟩ 0 10 5 "p" 0 ["X"] ["Y"]
    (by decide) (by decide) (by decide)
  exact ⟨h.1, h.2.2.1.trans rfl⟩

/-! Support lemmas for the AnalyzePlayer claims: how GetMatch found-flags
evolve through the fetch loop. -/

/-- Deleting a key removes its binding. -/
theorem mapGet_mapDelete_self {κ β : Type} [DecidableEq κ] (k : κ)
    (s : List (κ × β)) : mapGet k (mapDelete k s) = none := by
  induction s with
  | nil => rfl
  | cons e rest ih =>
    by_cases he : e.1 = k
    · simpa [mapDelete, he]
    · simp [mapDelete, he, mapGet, ih]

/-- Deleting a key leaves other bindings unchanged. -/
theorem mapGet_mapDelete_ne {κ β : Type} [DecidableEq κ] (k x : κ)
    (s : List (κ × β)) (hx : x ≠ k) :
    mapGet x (mapDelete k s) = mapGet x s := by
  have hkx : ¬ k = x := fun hh => hx hh.symm
  induction s with
  | nil => rfl
  | cons e rest ih =>
    by_cases he : e.1 = k
    · have hex : ¬ e.1 = x := by rw [he]; exact hkx
      simp [mapDelete, he, mapGet, hex, ih, hkx]
    · by_cases hex : e.1 = x
      · simp [mapDelete, he, mapGet, hex, hx]
      · simp [mapDelete, he, mapGet, hex, ih, hkx]

/-- Storing a key leaves other bindings unchanged. -/
theorem mapGet_mapSet_ne {κ β : Type} [DecidableEq κ] (k x : κ) (v : β)
    (s : List (κ × β)) (hx : x ≠ k) :
    mapGet x (mapSet k v s) = mapGet x s := by
  have hkx : ¬ k = x := fun hh => hx hh.symm
  simp [mapSet, mapGet, hkx, mapGet_mapDelete_ne k x s hx]

/-- The GetMatch found-flag depends only on the binding of the queried key. -/
theorem getMatch_flag_congr (cc cc2 : Cache) (now : Int) (x : String)
    (hst : mapGet x cc2.matchesStore = mapGet x cc.matchesStore) :
    (GetMatch (some cc2) now x).2.1 = (GetMatch (some cc) now x).2.1 := by
  by_cases hid : x = ""
  · simp [GetMatch, hid]
  · cases hmg : mapGet x cc.matchesStore with
    | none => simp [GetMatch, hid, hmg, hst.trans hmg]
    | some item =>
      by_cases hexp : now > item.expiresAt <;>
        simp [GetMatch, hid, hmg, hst.trans hmg, hexp]

/-- A hit leaves the cache unchanged and reports found. -/
theorem getMatch_some (c : Option Cache) (now : Int) (id : String)
    (m : MatchDto) (h : (GetMatch c now id).1 = some m) :
    (GetMatch c now id).2.2 = c ∧ (GetMatch c now id).2.1 = true := by
  cases c with
  | none => simp [GetMatch] at h
  | some cc =>
    by_cases hid : id = ""
    · simp [GetMatch, hid] at h
    · cases hmg : mapGet id cc.matchesStore with
      | none => simp [GetMatch, hid, hmg] at h
      | some item =>
        by_cases hexp : now > item.expiresAt
        · simp [GetMatch, hid, hmg, hexp] at h
        · simp [GetMatch, hid, hmg, hexp]

/-- A miss reports not-found. -/
theorem getMatch_none_flag (c : Option Cache) (now : Int) (id : String)
    (h : (GetMatch c now id).1 = none) : (GetMatch c now id).2.1 = false := by
  cases c with
  | none => rfl
  | some cc =>
    by_cases hid : id = ""
    · simp [GetMatch, hid]
    · cases hmg : mapGet id cc.matchesStore with
      | none => simp [GetMatch, hid, hmg]
      | some item =>
        by_cases hexp : now > item.expiresAt
        · simp [GetMatch, hid, hmg, hexp]
        · simp [GetMatch, hid, hmg, hexp] at h

/-- Whatever a GetMatch call does to the cache (nothing, or evicting an
expired entry), every subsequent found-flag is unchanged. -/
theorem getMatch_after (c : Option Cache) (now : Int) (id : String)
    (x : String) :
    (GetMatch ((GetMatch c now id).2.2) now x).2.1 = (GetMatch c now x).2.1 := by
  cases c with
  | none => rfl
  | some cc =>
    by_cases hid : id = ""
    · have hstate : (GetMatch (some cc) now id).2.2 = some cc := by
        simp [GetMatch, hid]
      rw [hstate]
    · cases hmg : mapGet id cc.matchesStore with
      | none =>
        have hstate : (GetMatch (some cc) now id).2.2 = some cc := by
          simp [GetMatch, hid, hmg]
        rw [hstate]
      | some item =>
        by_cases hexp : now > item.expiresAt
        · have hstate : (GetMatch (some cc) now id).2.2 =
              some { cc with matchesStore := mapDelete id cc.matchesStore } := by
            simp [GetMatch, hid, hmg, hexp]
          rw [hstate]
          by_cases hx : x = id
          · subst hx
            simp [GetMatch, hid, mapGet_mapDelete_self, hmg, hexp]
          · exact getMatch_flag_congr cc _ now x
              (mapGet_mapDelete_ne id x cc.matchesStore hx)
        · have hstate : (GetMatch (some cc) now id).2.2 = some cc := by
            simp [GetMatch, hid, hmg, hexp]
          rw [hstate]

/-- Caching a fetched match changes no other key's found-flag. -/
theorem setMatch_flag_ne (c : Option Cache) (now : Int) (id x : String)
    (m : MatchDto) (hx : x ≠ id) :
    (GetMatch (SetMatch c now id (some m)) now x).2.1 =
      (GetMatch c now x).2.1 := by
  cases c with
  | none => rfl
  | some cc =>
    by_cases hid : id = ""
    · have hstate : SetMatch (some cc) now id (some m) = some cc := by
        simp [SetMatch, hid]
      rw [hstate]
    · have hstate : SetMatch (some cc) now id (some m) = some { cc with matchesStore := mapSet id ⟨m, now + cc.matchTTL⟩ cc.matchesStore } := by
        simp [SetMatch, hid]
      rw [hstate]
      exact getMatch_flag_congr cc _ now x
        (mapGet_mapSet_ne id x _ cc.matchesStore hx)

/-- The number of matches collected by the fetch loop equals the count of
identifiers whose fetch succeeds: a cache hit against the loop's entry
cache, or a successful collaborator fetch. The loop's threading of the
cache (evictions and insertions of fetched matches) never changes that
per-identifier success measure. -/
theorem fetchLoop_length (env : CollabEnv) (now : Int) :
    ∀ (ids : List String) (c c' : Option Cache),
    (∀ x, matchFetchOK env c' now x = matchFetchOK env c now x) →
    (fetchMatchesLoop env now ids c').1.length =
      ids.countP (matchFetchOK env c now) := by
  intro ids
  induction ids with
  | nil => intro c c' h; simp [fetchMatchesLoop]
  | cons id rest ih =>
    intro c c' h
    cases hveq : (GetMatch c' now id).1 with
    | some m =>
      obtain ⟨hstate, hflag⟩ := getMatch_some c' now id m hveq
      have hok : matchFetchOK env c now id = true := by
        rw [← h id]
        simp [matchFetchOK, hflag]
      simp only [fetchMatchesLoop, hveq, hstate, List.countP_cons, hok,
        if_pos, List.length_cons]
      rw [ih c c' h]
    | none =>
      have hflag := getMatch_none_flag c' now id hveq
      cases henv : env.getTFTMatchByID id with
      | some m =>
        have hok : matchFetchOK env c now id = true := by
          rw [← h id]
          simp [matchFetchOK, henv]
        have h2 : ∀ x, matchFetchOK env
            (SetMatch ((GetMatch c' now id).2.2) now id (some m)) now x =
            matchFetchOK env c now x := by
          intro x
          by_cases hx : x = id
          · subst hx
            rw [hok]
            simp [matchFetchOK, henv]
          · unfold matchFetchOK
            rw [setMatch_flag_ne _ now id x m hx, getMatch_after]
            exact h x
        simp only [fetchMatchesLoop, hveq, henv, List.countP_cons, hok,
          List.length_cons]
        rw [ih c _ h2]
        simp
      | none =>
        have hnotok : matchFetchOK env c now id = false := by
          rw [← h id]
          simp [matchFetchOK, hflag, henv]
        have h3 : ∀ x, matchFetchOK env ((GetMatch c' now id).2.2) now x =
            matchFetchOK env c now x := by
          intro x
          unfold matchFetchOK
          rw [getMatch_after]
          exact h x
        simp only [fetchMatchesLoop, hveq, henv, List.countP_cons, hnotok]
        rw [ih c _ h3]
        simp

/-- A profile-cache read reporting not-found carries no value. -/
theorem getProfile_not_found (c : Option Cache) (now : Int) (k : String)
    (h : (GetProfile c now k).2.1 = false) : (GetProfile c now k).1 = none := by
  cases c with
  | none => rfl
  | some cc =>
    by_cases hid : k = ""
    · simp [GetProfile, hid]
    · cases hmg : mapGet k cc.profiles with
      | none => simp [GetProfile, hid, hmg]
      | some item =>
        by_cases hexp : now > item.expiresAt
        · simp [GetProfile, hid, hmg, hexp]
        · simp [GetProfile, hid, hmg, hexp] at h

/-- C2: whenever AnalyzePlayer derives a fresh profile (no cached profile was
found), the profile's AnalyzedGames equals the number of resolved match
identifiers whose fetch succeeds — by match-cache hit or collaborator
success — and that number is at least MinGamesRequired; otherwise an error
is returned instead. -/
theorem C2_analyzed_games (pa : ProfileAnalyzer) (env : CollabEnv) (now : Int)
    (puuid : String) (prof : PlayerProfile)
    (hmiss : (GetProfile pa.Cache now puuid).2.1 = false)
    (hok : (AnalyzePlayer pa env now puuid).1 = .ok prof) :
    prof.AnalyzedGames =
      (matchIDsOf pa env now puuid).countP
        (matchFetchOK env (cacheAtFetch pa env now puuid) now) ∧
    pa.MinGamesRequired ≤ prof.AnalyzedGames := by
  have hval := getProfile_not_found _ _ _ hmiss
  unfold AnalyzePlayer at hok
  simp only [hval] at hok
  cases hres : (resolvedMatchIDs pa env now
      (GetProfile pa.Cache now puuid).2.2 puuid).1 with
  | none => simp [hres] at hok
  | some ids =>
    simp only [hres] at hok
    by_cases hlen : ids.length < pa.MinGamesRequired
    · simp [hlen] at hok
    · rw [if_neg hlen] at hok
      by_cases hfetch : (fetchMatchesLoop env now ids (resolvedMatchIDs pa env
          now (GetProfile pa.Cache now puuid).2.2 puuid).2).1.length <
          pa.MinGamesRequired
      · simp [hfetch] at hok
      · rw [if_neg hfetch] at hok
        simp only [Except.ok.injEq] at hok
        have hcount := fetchLoop_length env now ids
          (resolvedMatchIDs pa env now
            (GetProfile pa.Cache now puuid).2.2 puuid).2
          (resolvedMatchIDs pa env now
            (GetProfile pa.Cache now puuid).2.2 puuid).2
          (fun _ => rfl)
        have hids : matchIDsOf pa env now puuid = ids := by
          unfold matchIDsOf
          rw [hres]
          rfl
        have hgames : prof.AnalyzedGames = (fetchMatchesLoop env now ids
            (resolvedMatchIDs pa env now
              (GetProfile pa.Cache now puuid).2.2 puuid).2).1.length := by
          rw [← hok]
          rfl
        constructor
        · rw [hgames, hids]
          exact hcount
        · rw [hgames]
          omega

/-- Collaborator environment for the AnalyzePlayer witnesses: region NA1
yields five match identifiers and every match fetch succeeds with an empty
match record. -/
def C2witEnv : CollabEnv :=
  { getTFTMatchIDsByPUUIDWithRegion := fun _ region _ _ =>
      if region = "NA1" then some ["m1", "m2", "m3", "m4", "m5"] else none
    getTFTMatchByID := fun _ => some ⟨⟨[]⟩⟩ }

/-- Analyzer configuration for the AnalyzePlayer witnesses: default limits,
no cache attached. -/
def C2witPA : ProfileAnalyzer :=
  { MaxGamesToAnalyze := 20, MinGamesRequired := 5, Cache := none }

/-- Profile derived in the C2 witness scenario. -/
def C2witProf : PlayerProfile :=
  match (AnalyzePlayer C2witPA C2witEnv 0 "p").1 with
  | .ok prof => prof
  | .error _ => emptyPlayerProfile

/-- Witness for C2: with five resolvable identifiers all fetching
successfully, the derived profile counts exactly the successful fetches and
meets the threshold. -/
theorem C2_analyzed_games_witness :
    (GetProfile C2witPA.Cache 0 "p").2.1 = false ∧
    (AnalyzePlayer C2witPA C2witEnv 0 "p").1 = .ok C2witProf ∧
    (C2witProf.AnalyzedGames =
      (matchIDsOf C2witPA C2witEnv 0 "p").countP
        (matchFetchOK C2witEnv (cacheAtFetch C2witPA C2witEnv 0 "p") 0) ∧
     C2witPA.MinGamesRequired ≤ C2witProf.AnalyzedGames) := by
  have hok : (AnalyzePlayer C2witPA C2witEnv 0 "p").1 = .ok C2witProf := rfl
  exact ⟨rfl, hok, C2_analyzed_games C2witPA C2witEnv 0 "p" C2witProf rfl hok⟩

/-- C5: with no cached profile, AnalyzePlayer fails exactly in three cases,
each with its typed error: identifier resolution yields nothing — which
happens precisely when the match-ID cache misses and every region probe of
the collaborator fails or returns no identifiers (NoMatchHistory); the
resolved identifier count is below MinGamesRequired (InsufficientGames); or
the per-identifier fetch successes, skipped rather than fatal, number below
MinGamesRequired (InsufficientValidMatches). When none of these holds, a
profile is returned: fetch failures above the threshold never cause
failure. -/
theorem C5_failure_conditions (pa : ProfileAnalyzer) (env : CollabEnv)
    (now : Int) (puuid : String) (res1 : Option (List String))
    (res2 : Option Cache)
    (hmiss : (GetProfile pa.Cache now puuid).2.1 = false)
    (hres : resolvedMatchIDs pa env now
      (GetProfile pa.Cache now puuid).2.2 puuid = (res1, res2)) :
    (res1 = none ↔
      ((GetMatchIDs (GetProfile pa.Cache now puuid).2.2 now puuid).2.1 = false ∧
       findMatchIDs env puuid pa.MaxGamesToAnalyze analyzeRegions = [])) ∧
    (res1 = none →
      (AnalyzePlayer pa env now puuid).1 = .error (noMatchHistoryMsg puuid)) ∧
    (∀ ids, res1 = some ids → ids.length < pa.MinGamesRequired →
      (AnalyzePlayer pa env now puuid).1 =
        .error (insufficientGamesMsg ids.length pa.MinGamesRequired)) ∧
    (∀ ids, res1 = some ids → pa.MinGamesRequired ≤ ids.length →
      ids.countP (matchFetchOK env res2 now) < pa.MinGamesRequired →
      (AnalyzePlayer pa env now puuid).1 =
        .error (insufficientValidMatchesMsg
          (ids.countP (matchFetchOK env res2 now)))) ∧
    (∀ ids, res1 = some ids → pa.MinGamesRequired ≤ ids.length →
      pa.MinGamesRequired ≤ ids.countP (matchFetchOK env res2 now) →
      (AnalyzePlayer pa env now puuid).1 =
        .ok (deriveProfile now puuid (fetchMatchesLoop env now ids res2).1)) := by
  have hval := getProfile_not_found _ _ _ hmiss
  have hcnt : ∀ ids : List String,
      (fetchMatchesLoop env now ids res2).1.length =
        ids.countP (matchFetchOK env res2 now) :=
    fun ids => fetchLoop_length env now ids res2 res2 (fun _ => rfl)
  have hmain : ∀ ids, res1 = some ids →
      (AnalyzePlayer pa env now puuid).1 =
        (if ids.length < pa.MinGamesRequired then
          .error (insufficientGamesMsg ids.length pa.MinGamesRequired)
        else if (fetchMatchesLoop env now ids res2).1.length <
            pa.MinGamesRequired then
          .error (insufficientValidMatchesMsg
            (fetchMatchesLoop env now ids res2).1.length)
        else .ok (deriveProfile now puuid (fetchMatchesLoop env now ids res2).1)) := by
    intro ids hids
    unfold AnalyzePlayer
    simp only [hval, hres, hids]
    split_ifs <;> rfl
  refine ⟨?_, ?_, ?_, ?_, ?_⟩
  · have h1 : res1 = (resolvedMatchIDs pa env now
        (GetProfile pa.Cache now puuid).2.2 puuid).1 := by rw [hres]
    rw [h1]
    unfold resolvedMatchIDs
    by_cases hhit : (GetMatchIDs (GetProfile pa.Cache now puuid).2.2 now
        puuid).2.1 = true
    · simp [hhit]
    · have hflag : (GetMatchIDs (GetProfile pa.Cache now puuid).2.2 now
          puuid).2.1 = false := by
        cases hb : (GetMatchIDs (GetProfile pa.Cache now puuid).2.2 now
            puuid).2.1
        · rfl
        · exact absurd hb hhit
      by_cases h0 : (findMatchIDs env puuid pa.MaxGamesToAnalyze
          analyzeRegions).length = 0
      · simp [hflag, h0, List.length_eq_zero.mp h0]
      · simp [hflag, h0]
        intro hemp
        rw [hemp] at h0
        exact h0 rfl
  · intro hnone
    unfold AnalyzePlayer
    simp only [hval, hres, hnone]
  · intro ids hids hlen
    rw [hmain ids hids, if_pos hlen]
  · intro ids hids hlen hcount
    rw [hmain ids hids, if_neg (by omega),
      if_pos (by rw [hcnt ids]; exact hcount), hcnt ids]
  · intro ids hids hlen hcount
    rw [hmain ids hids, if_neg (by omega),
      if_neg (by rw [hcnt ids]; omega)]

/-- Collaborator environment for the C5 witness: five identifiers resolve in
NA1 but the fetches of m4 and m5 fail, leaving three valid matches. -/
def C5witEnv : CollabEnv :=
  { getTFTMatchIDsByPUUIDWithRegion := fun _ region _ _ =>
      if region = "NA1" then some ["m1", "m2", "m3", "m4", "m5"] else none
    getTFTMatchByID := fun id =>
      if id = "m4" ∨ id = "m5" then none else some ⟨⟨[]⟩⟩ }

/-- Witness for C5: five identifiers but only three successful fetches
(below the threshold of five) produce the InsufficientValidMatches error. -/
theorem C5_failure_conditions_witness :
    (AnalyzePlayer C2witPA C5witEnv 0 "p").1 =
      .error (insufficientValidMatchesMsg
        ((["m1", "m2", "m3", "m4", "m5"] : List String).countP
          (matchFetchOK C5witEnv none 0))) := by
  have h := C5_failure_conditions C2witPA C5witEnv 0 "p"
    (some ["m1", "m2", "m3", "m4", "m5"]) none rfl rfl
  exact h.2.2.2.1 _ rfl (by decide) (by decide)

end TFT
